import Mathlib

/-!
# Verification of the Buzzy-Conversion PDF conversion pipeline

Shallow embedding of the conversion core of `src/app.py`:

* the table-extraction ladder of `convert_pdf_to_excel` (app.py:143-198),
* the per-table normalization loop (app.py:200-257),
* the workbook rendering decisions (app.py:262-375),
* the DOCX conversion pre/post checks of `convert_pdf_to_docx` (app.py:57-128),
* the upload routes' source-file lifecycle (app.py:419-555),
* the download route's MIME declaration (app.py:557-594).

Cells of an extracted pandas table are modelled as `Option String`:
`none` is the pandas null marker NaN (whose textual form via `str()` is
`"nan"`), `some s` is any other value rendered as the string `s`.
The Python string primitives used by the code (`strip`, `lower`,
`startswith`, `isdigit`, substring membership, single-character
`replace`, slicing) are modelled structurally over `List Char` so that
every definition evaluates inside the kernel; `isdigit` is modelled over
ASCII digits.  Filesystem and network effects are abstracted: the
results of the external calls (tabula extraction, pdf2docx conversion,
file probes) enter the model as explicit parameters, and the pure
decision logic that `app.py` performs on them is embedded faithfully.
-/

set_option autoImplicit false

namespace Buzzy

/-- Python `str.strip()` on the character list: drop whitespace from
both ends. -/
def stripChars (cs : List Char) : List Char :=
  ((cs.dropWhile Char.isWhitespace).reverse.dropWhile Char.isWhitespace).reverse

/-- Python `str.strip()`. -/
def pyStrip (s : String) : String := String.mk (stripChars s.data)

/-- Python `str.lower()` (ASCII case folding, which covers every string
literal the code compares against). -/
def pyLower (s : String) : String := String.mk (s.data.map Char.toLower)

/-- List prefix test, structurally. -/
def isPre : List Char → List Char → Bool
  | [], _ => true
  | _ :: _, [] => false
  | a :: as, b :: bs => a == b && isPre as bs

/-- Python `str.startswith(pre)`. -/
def pyStartsWith (s pre : String) : Bool := isPre pre.data s.data

/-- Python `pat in s` (substring membership). -/
def hasSubChars (pat : List Char) : List Char → Bool
  | [] => pat.isEmpty
  | c :: cs => isPre pat (c :: cs) || hasSubChars pat cs

/-- Python `pat in s` on strings. -/
def pyContains (s pat : String) : Bool := hasSubChars pat.data s.data

/-- Python `str.isdigit()` (ASCII digits): non-empty and all digits. -/
def pyIsDigit (s : String) : Bool := !s.data.isEmpty && s.data.all Char.isDigit

/-- Python single-character `str.replace(a, b)`. -/
def replChar (a b : Char) (s : String) : String :=
  String.mk (s.data.map (fun c => if c == a then b else c))

/-- Python slice `s[:n]`. -/
def pyTake (s : String) (n : Nat) : String := String.mk (s.data.take n)

/-- A pandas cell value: `none` is the NaN null marker. -/
abbrev Cell := Option String

/-- Raw column label of an extracted table: a scalar label, or a
multi-level (tuple) label as produced by a two-row header read. -/
inductive RawLabel where
  | scalar (c : Cell)
  | tuple (cs : List Cell)
deriving DecidableEq

/-- A table as returned by one tabula extraction call, before
normalization (an `ExtractedTable` of the spec). -/
structure ExtractedTable where
  cols : List RawLabel
  rows : List (List Cell)
deriving DecidableEq

/-- A table after the normalization loop of app.py:200-257
(a `NormalizedTable` of the spec). -/
structure NormalizedTable where
  cols : List String
  rows : List (List Cell)
deriving DecidableEq

/-- Python `str()` applied to a cell: NaN renders as `"nan"`. -/
def strOfCell : Cell → String
  | some s => s
  | none => "nan"

/-- Step 1 of normalization (app.py:206-212): a multi-level (tuple)
label is flattened by joining the `str()` of its non-null components
whose stripped form is non-empty with single spaces; a scalar label is
just rendered with `str()` (app.py:219 applies `str` to it anyway). -/
def flattenLabel : RawLabel → String
  | .scalar c => strOfCell c
  | .tuple cs =>
      String.mk (List.intercalate [' ']
        (((cs.filter (fun c => c.isSome && (pyStrip (strOfCell c) != ""))).map
          strOfCell).map String.data))

/-- The test at app.py:222-226 deciding that a (stripped) column label
does not look like a real header: it starts with `Unnamed`, or is empty,
or is the rendering of the null marker (`nan` / any-case `none`). -/
def isSyntheticLabel (s : String) : Bool :=
  pyStartsWith s "Unnamed" || s == "" || s == "nan" || pyLower s == "none"

/-- The test at app.py:231-235 deciding that a first-row value may be
promoted to a column label: non-empty, not the null marker rendering,
and not purely numeric (Python `str.isdigit`). -/
def isGoodHeader (v : String) : Bool :=
  (v != "") && (v != "nan") && (pyLower v != "none") &&
    decide (0 < v.length) && !(pyIsDigit v)

/-- `str(df.iloc[0, j]).strip()` (app.py:230): the stripped rendering of
the first data row's value in column `j`. -/
def headerCandidate (r0 : List Cell) (j : Nat) : String :=
  pyStrip (strOfCell (r0.getD j none))

/-- Resolution of one column label (the loop body at app.py:218-243).
Returns the new label and whether the first data row was used for it. -/
def resolveLabel (r0 : List Cell) (j : Nat) (s : String) : String × Bool :=
  if isSyntheticLabel (pyStrip s) then
    if isGoodHeader (headerCandidate r0 j) then (headerCandidate r0 j, true)
    else ("Column_" ++ toString (j + 1), false)
  else (pyStrip s, false)

/-- The `new_columns` loop of app.py:215-243 over all columns. -/
def newColumns (cols : List String) (r0 : List Cell) : List (String × Bool) :=
  (List.range cols.length).map (fun j => resolveLabel r0 j (cols.getD j ""))

/-- A row is entirely null (what `dropna(axis=0, how='all')` removes). -/
def rowAllNa (r : List Cell) : Bool := r.all (fun c => c.isNone)

/-- Rows surviving `df.dropna(axis=0, how='all')` (app.py:252). -/
def keptRows (rows : List (List Cell)) : List (List Cell) :=
  rows.filter (fun r => !rowAllNa r)

/-- Column indices surviving `df.dropna(axis=1, how='all')` (app.py:253),
judged on the rows that survived row removal. -/
def keptCols (cols : List String) (rows2 : List (List Cell)) : List Nat :=
  (List.range cols.length).filter (fun j => rows2.any (fun r => (r.getD j none).isSome))

/-- `df.dropna(axis=0, how='all')` followed by `dropna(axis=1, how='all')`
(app.py:252-253): drop all-null rows, then drop the columns that are
all-null in the remaining rows. -/
def dropEmptyRC (cols : List String) (rows : List (List Cell)) :
    List String × List (List Cell) :=
  ((keptCols cols (keptRows rows)).map (fun j => cols.getD j ""),
   (keptRows rows).map (fun r => (keptCols cols (keptRows rows)).map (fun j => r.getD j none)))

/-- The resolved `(label, promoted)` pairs for a table: flatten the raw
labels (step 1) and run the `new_columns` loop against the first data
row. -/
def resolvedOf (t : ExtractedTable) : List (String × Bool) :=
  newColumns (t.cols.map flattenLabel) (t.rows.getD 0 [])

/-- `df.columns = new_columns` (app.py:245). -/
def labelsOf (t : ExtractedTable) : List String :=
  (resolvedOf t).map Prod.fst

/-- `first_row_used_as_header` (app.py:216, set at app.py:237). -/
def promotedOf (t : ExtractedTable) : Bool :=
  (resolvedOf t).any Prod.snd

/-- `df = df.iloc[1:]` when the first row became the header
(app.py:248-249): all-or-nothing drop of the first data row. -/
def rows1Of (t : ExtractedTable) : List (List Cell) :=
  if promotedOf t then t.rows.tail else t.rows

/-- The (columns, rows) pair after steps 1-4 of normalization. -/
def normalizedPair (t : ExtractedTable) : List String × List (List Cell) :=
  dropEmptyRC (labelsOf t) (rows1Of t)

/-- The whole per-table normalization loop body (app.py:203-257):
`none` when the table is skipped (initially empty, app.py:204) or
discarded (no rows or no columns remain, app.py:256). -/
def normalizeTable (t : ExtractedTable) : Option NormalizedTable :=
  if t.rows.isEmpty || t.cols.isEmpty then none
  else if (normalizedPair t).2.isEmpty || (normalizedPair t).1.isEmpty then none
  else some ⟨(normalizedPair t).1, (normalizedPair t).2⟩

/-- Feed a normalized table back through extraction form: its flat
string labels become scalar labels (what re-running steps 1-4 on an
already-normalized table means). -/
def reExtract (nt : NormalizedTable) : ExtractedTable :=
  ⟨nt.cols.map (fun s => RawLabel.scalar (some s)), nt.rows⟩

/-- `not df.empty` for a single dataframe: it has rows and columns. -/
def tableOk (t : ExtractedTable) : Bool :=
  !(t.rows.isEmpty || t.cols.isEmpty)

/-- Negation of the retry condition of the ladder (app.py:159, 171, 184):
the ladder keeps a strategy's output iff the output list is non-empty
and no returned dataframe is empty
(`not dfs or len(dfs) == 0 or any(df.empty for df in dfs)` fails). -/
def ladderAccepts (dfs : List ExtractedTable) : Bool :=
  !dfs.isEmpty && dfs.all tableOk

/-- The four-step extraction ladder of app.py:143-193: lattice with
single-row header, lattice with two-row header, stream with single-row
header, stream with no header. Each `sᵢ` is the table list returned by
strategy `i`; the first accepted output wins, and the fourth attempt's
output is kept unconditionally. -/
def extractionLadder (s1 s2 s3 s4 : List ExtractedTable) : List ExtractedTable :=
  if ladderAccepts s1 then s1
  else if ladderAccepts s2 then s2
  else if ladderAccepts s3 then s3
  else s4

/-- Re-cleaning applied to each surviving table inside the Excel writer
block (app.py:272). -/
def recleanTable (nt : NormalizedTable) : NormalizedTable :=
  ⟨(dropEmptyRC nt.cols nt.rows).1, (dropEmptyRC nt.cols nt.rows).2⟩

/-- Sheet naming (app.py:276-279): `Table_<i+1>` when several tables
survived, else `Data`; truncated to 31 characters with path separators
replaced. -/
def sheetName (total i : Nat) : String :=
  replChar '\\' '_' (replChar '/' '_'
    (pyTake (if total > 1 then "Table_" ++ toString (i + 1) else "Data") 31))

/-- The placeholder dataframe written at app.py:374. -/
def noticeTable : NormalizedTable :=
  ⟨["Message"], [[some "No tabular data found in the PDF file."]]⟩

/-- The sheets written by the per-table loop of the Excel writer block
(app.py:268-370): each surviving table is re-cleaned (app.py:272) and
written when still non-empty (app.py:275), named by its position. -/
def sheetsOf (processed : List NormalizedTable) : List (String × NormalizedTable) :=
  processed.enum.filterMap (fun p =>
    if (recleanTable p.2).rows.isEmpty || (recleanTable p.2).cols.isEmpty then none
    else some (sheetName processed.length p.1, recleanTable p.2))

/-- The workbook written by the Excel writer block (app.py:267-375): the
per-table sheets, or the single `Notice` placeholder sheet when no sheet
was written (app.py:372-375). -/
def renderWorkbook (processed : List NormalizedTable) :
    List (String × NormalizedTable) :=
  if (sheetsOf processed).isEmpty then [("Notice", noticeTable)] else sheetsOf processed

/-- The failure message of app.py:264. -/
def noTablesMsg : String :=
  "No tables or data found in the PDF. The file might contain only images or be a scanned document."

/-- The post-extraction core of `convert_pdf_to_excel` (app.py:200-385):
normalize every extracted table; if nothing survives, fail with
`noTablesMsg` (app.py:262-264); otherwise write the workbook. -/
def excelPipeline (dfs : List ExtractedTable) :
    Except String (List (String × NormalizedTable)) :=
  if (dfs.filterMap normalizeTable).isEmpty then Except.error noTablesMsg
  else Except.ok (renderWorkbook (dfs.filterMap normalizeTable))

/-- `convert_pdf_to_excel` (app.py:130-385) as a function of the four
strategy outputs of the extraction ladder; the I/O pre/post checks on an
ideal filesystem always pass and are omitted. -/
def convert_pdf_to_excel (s1 s2 s3 s4 : List ExtractedTable) :
    Except String (List (String × NormalizedTable)) :=
  excelPipeline (extractionLadder s1 s2 s3 s4)

/-! ## DOCX conversion (app.py:57-128) -/

/-- Abstracted environment for one `convert_pdf_to_docx` call: the
outcome of every external probe and of the pdf2docx transformer call
(`conversionRaises` carries the raised error text, `none` on success). -/
structure DocxEnv where
  srcExists : Bool
  srcSize : Nat
  conversionRaises : Option String
  destExists : Bool
  destSize : Nat
  destIsZip : Bool
  destEntries : List String
deriving DecidableEq

/-- `required_files` at app.py:94. -/
def requiredDocxEntries : List String := ["[Content_Types].xml", "word/document.xml"]

/-- The substring-based classification of transformer errors
(app.py:116-128). -/
def classifyDocxError (msg : String) : String :=
  if pyContains msg "No module named" then "Required conversion libraries are not installed"
  else if pyContains msg "Permission denied" then "File access permission error"
  else if pyContains msg "No such file" then "Input file could not be found"
  else "Conversion failed: " ++ msg

/-- `convert_pdf_to_docx` (app.py:57-128): returns the `(success,
message)` result together with the list of missing required container
entries, which the code merely logs as warnings (app.py:97-99) without
affecting the result. -/
def convert_pdf_to_docx (env : DocxEnv) : (Bool × String) × List String :=
  if !env.srcExists then ((false, "Input PDF file not found"), [])
  else if env.srcSize = 0 then ((false, "PDF file is empty"), [])
  else
    match env.conversionRaises with
    | some msg => ((false, classifyDocxError msg), [])
    | none =>
      if !env.destExists then ((false, "DOCX file was not created"), [])
      else if env.destSize = 0 then ((false, "Generated DOCX file is empty"), [])
      else if !env.destIsZip then ((false, "Generated file is not a valid DOCX format"), [])
      else ((true, "Conversion completed successfully"),
            requiredDocxEntries.filter (fun f => !env.destEntries.contains f))

/-! ## Upload routes (app.py:419-555) -/

/-- `allowed_file` (app.py:34-37): the name contains a dot and the part
after the last dot, lowercased, is `pdf`. -/
def allowed_file (filename : String) : Bool :=
  filename.data.contains '.' &&
    ((filename.data.reverse.takeWhile (fun c => c != '.')).reverse.map Char.toLower
      == "pdf".data)

/-- One upload request as the route sees it: whether a file part is
present, its declared name, and whether the body exceeded the size
ceiling (which raises `RequestEntityTooLarge` during request parsing,
before any file is saved). -/
structure UploadRequest where
  hasFile : Bool
  filename : String
  tooLarge : Bool
deriving DecidableEq

/-- Abstracted outcomes of the processing steps run after the source
file is saved: the `validate_pdf` result, whether an unexpected
exception escapes to the route's generic handler (app.py:477-486), and
the converter result. -/
structure ConvEnv where
  validOk : Bool
  validMsg : String
  crash : Bool
  crashMsg : String
  convOk : Bool
  convMsg : String
deriving DecidableEq

/-- The observable outcome of an upload route: the JSON success flag and
message, and whether the stored source PDF still exists on disk after
the response is returned (on an ideal filesystem where `os.remove`
succeeds). -/
structure UploadOutcome where
  success : Bool
  message : String
  sourceRemains : Bool
deriving DecidableEq

/-- The shared flow of `upload_file` (app.py:419-486) and
`upload_file_excel` (app.py:488-555).  The source file is saved only
after the extension check; every later exit removes it first
(app.py:451, 462, 481-483 and 521, 531, 550-552).  An unexpected
exception after the save is modelled as a single `crash` step whose
handler removes the file and answers with the generic message. -/
def upload_flow (successMsg : String) (req : UploadRequest) (env : ConvEnv) :
    UploadOutcome :=
  if req.tooLarge then
    { success := false, message := "File too large. Maximum size is 50MB.",
      sourceRemains := false }
  else if !req.hasFile then
    { success := false, message := "No file selected", sourceRemains := false }
  else if req.filename == "" then
    { success := false, message := "No file selected", sourceRemains := false }
  else if !allowed_file req.filename then
    { success := false, message := "Only PDF files are allowed", sourceRemains := false }
  else if env.crash then
    { success := false, message := "An error occurred: " ++ env.crashMsg,
      sourceRemains := false }
  else if !env.validOk then
    { success := false, message := env.validMsg, sourceRemains := false }
  else if !env.convOk then
    { success := false, message := env.convMsg, sourceRemains := false }
  else
    { success := true, message := successMsg, sourceRemains := false }

/-- `upload_file` (app.py:419-486), the PDF→DOCX route. -/
def upload_file (req : UploadRequest) (env : ConvEnv) : UploadOutcome :=
  upload_flow "File converted successfully" req env

/-- `upload_file_excel` (app.py:488-555), the PDF→Excel route. -/
def upload_file_excel (req : UploadRequest) (env : ConvEnv) : UploadOutcome :=
  upload_flow "PDF to Excel conversion completed successfully" req env

/-! ## Download route (app.py:557-594) -/

/-- The word-processing MIME type hardcoded at app.py:588. -/
def wordMime : String :=
  "application/vnd.openxmlformats-officedocument.wordprocessingml.document"

/-- The MIME type `download_file` declares for a served artifact
(app.py:584-589): the same constant for every filename. -/
def download_mimetype (_filename : String) : String := wordMime

/-! ## Concrete instances used by counterexamples and witnesses -/

/-- A 1×1 table whose only cell is null: extraction finds it non-empty
but normalization discards it. -/
def tAllNa : ExtractedTable := ⟨[RawLabel.scalar (some "A")], [[none]]⟩

/-- A table with two identical column labels. -/
def tDup : ExtractedTable :=
  ⟨[RawLabel.scalar (some "A"), RawLabel.scalar (some "A")], [[some "x", some "y"]]⟩

/-- A well-formed extracted table with labels `["A"]`. -/
def tW2 : ExtractedTable := ⟨[RawLabel.scalar (some "A")], [[some "x"]]⟩

/-- The normalization of `tW2`. -/
def ntW2 : NormalizedTable := ⟨["A"], [[some "x"]]⟩

/-- A strategy output with one good table. -/
def tGoodA : ExtractedTable := ⟨[RawLabel.scalar (some "A")], [[some "x"]]⟩

/-- An empty dataframe (`df.empty` holds). -/
def tEmptyT : ExtractedTable := ⟨[], []⟩

/-- A different good table, distinguishable from `tGoodA`. -/
def tGoodB : ExtractedTable := ⟨[RawLabel.scalar (some "B")], [[some "y"]]⟩

/-- Synthetic label, promotable first row, all-null second row. -/
def tC4 : ExtractedTable :=
  ⟨[RawLabel.scalar (some "Unnamed: 0")], [[some "Name"], [none]]⟩

/-- Synthetic label, promotable first row, non-null second row. -/
def tC4w : ExtractedTable :=
  ⟨[RawLabel.scalar (some "Unnamed: 0")], [[some "Name"], [some "Alice"]]⟩

/-- A one-column table whose label is the null marker and whose first
row holds a promotable header value. -/
def t5w : ExtractedTable := ⟨[RawLabel.scalar none], [[some "Name"]]⟩

/-- An upload request carrying a well-named PDF within the size limit. -/
def reqPdf : UploadRequest := ⟨true, "doc.pdf", false⟩

/-- A processing environment whose PDF validation fails. -/
def envInvalid : ConvEnv :=
  ⟨false, "Invalid or corrupted PDF file: EOF marker not found", false, "", true, ""⟩

/-- A docx environment whose destination zip lacks `word/document.xml`. -/
def envC8 : DocxEnv := ⟨true, 10, none, true, 10, true, ["[Content_Types].xml"]⟩

/-- A docx environment where every probe passes and both required
entries are present. -/
def envC8ok : DocxEnv :=
  ⟨true, 5, none, true, 5, true, ["[Content_Types].xml", "word/document.xml"]⟩

/-- A table whose synthetic label gets a promoted header that itself
starts with `Unnamed`. -/
def t9 : ExtractedTable :=
  ⟨[RawLabel.scalar (some "Unnamed: 0")], [[some "Unnamed X"], [some "data"]]⟩

/-- The normalization of `t9`: its label starts with `Unnamed`. -/
def nt9 : NormalizedTable := ⟨["Unnamed X"], [[some "data"]]⟩

/-- A normalized table with an ordinary label. -/
def nt9w : NormalizedTable := ⟨["Name"], [[some "Alice"]]⟩

/-- The single-cell boundary table with value `"X"` under a synthetic
column label. -/
def t10 : ExtractedTable := ⟨[RawLabel.scalar (some "Unnamed: 0")], [[some "X"]]⟩

/-! ## Helper lemmas -/

theorem getD_map_lt {α β : Type} (f : α → β) (e : β) :
    ∀ (l : List α) (j : Nat) (d : α), j < l.length → (l.map f).getD j e = f (l.getD j d)
  | _ :: _, 0, _, _ => rfl
  | _ :: l, j + 1, d, h => getD_map_lt f e l j d (Nat.lt_of_succ_lt_succ h)
  | [], j, _, h => absurd h (Nat.not_lt_zero j)

theorem getD_eq_get {α : Type} :
    ∀ (l : List α) (j : Nat) (d : α) (h : j < l.length), l.getD j d = l.get ⟨j, h⟩
  | _ :: _, 0, _, _ => rfl
  | _ :: l, j + 1, d, h => getD_eq_get l j d (Nat.lt_of_succ_lt_succ h)
  | [], j, _, h => absurd h (Nat.not_lt_zero j)

theorem getD_mem {α : Type} (l : List α) (j : Nat) (d : α) (h : j < l.length) :
    l.getD j d ∈ l := by
  rw [getD_eq_get l j d h]
  exact List.get_mem l j h

theorem getD_range : ∀ (n j d : Nat), j < n → (List.range n).getD j d = j := by
  intro n
  induction n with
  | zero => exact fun j d h => absurd h (Nat.not_lt_zero j)
  | succ n ih =>
    intro j d h
    rw [List.range_succ_eq_map]
    cases j with
    | zero => rfl
    | succ j =>
      have hj : j < n := Nat.lt_of_succ_lt_succ h
      show ((List.range n).map Nat.succ).getD j d = j + 1
      rw [getD_map_lt Nat.succ d (List.range n) j 0 (by simpa using hj), ih j 0 hj]

theorem range_map_getD {α : Type} (l : List α) (d : α) :
    (List.range l.length).map (fun j => l.getD j d) = l := by
  induction l with
  | nil => rfl
  | cons a l ih =>
    show List.map _ (List.range (l.length + 1)) = _
    rw [List.range_succ_eq_map, List.map_cons, List.map_map]
    refine congrArg (a :: ·) ?_
    show (List.range l.length).map (fun j => l.getD j d) = l
    exact ih

theorem resolveLabel_fst_ne (r0 : List Cell) (j : Nat) (s : String) :
    (resolveLabel r0 j s).1 ≠ "" := by
  unfold resolveLabel
  split
  · split
    · rename_i hgood
      simp only [isGoodHeader, Bool.and_eq_true, bne_iff_ne, ne_eq,
        decide_eq_true_eq] at hgood
      exact hgood.1.1.1.1
    · intro h
      have h2 := congrArg String.length h
      rw [String.length_append] at h2
      have h7 : "Column_".length = 7 := by decide
      have h0 : "".length = 0 := by decide
      rw [h7, h0] at h2
      omega
  · rename_i hsyn
    intro h
    have h' : pyStrip s = "" := h
    rw [h'] at hsyn
    exact hsyn (by decide)

theorem labelsOf_length (t : ExtractedTable) : (labelsOf t).length = t.cols.length := by
  simp [labelsOf, resolvedOf, newColumns]

theorem mem_labelsOf_ne (t : ExtractedTable) : ∀ lbl ∈ labelsOf t, lbl ≠ "" := by
  intro lbl h
  simp only [labelsOf, resolvedOf, newColumns, List.map_map, List.mem_map,
    List.mem_range] at h
  obtain ⟨j, _, rfl⟩ := h
  exact resolveLabel_fst_ne _ _ _

theorem mem_rows1Of (t : ExtractedTable) : ∀ r ∈ rows1Of t, r ∈ t.rows := by
  intro r h
  unfold rows1Of at h
  split at h
  · exact List.mem_of_mem_tail h
  · exact h

theorem dropEmptyRC_rect (cols : List String) (rows : List (List Cell)) :
    ∀ r ∈ (dropEmptyRC cols rows).2, r.length = (dropEmptyRC cols rows).1.length := by
  intro r hr
  simp only [dropEmptyRC, List.mem_map] at hr
  obtain ⟨r', _, rfl⟩ := hr
  simp [dropEmptyRC]

theorem mem_dropEmptyRC_fst (cols : List String) (rows : List (List Cell)) :
    ∀ lbl ∈ (dropEmptyRC cols rows).1, ∃ j, j < cols.length ∧ lbl = cols.getD j "" := by
  intro lbl h
  simp only [dropEmptyRC, keptCols, List.mem_map, List.mem_filter, List.mem_range] at h
  obtain ⟨j, ⟨hj, _⟩, rfl⟩ := h
  exact ⟨j, hj, rfl⟩

theorem all_isNone_false_of_mem {r : List Cell} {c : Cell} (hc : c ∈ r)
    (h : c.isSome = true) : rowAllNa r = false := by
  cases hall : rowAllNa r with
  | false => rfl
  | true =>
    exfalso
    have := List.all_eq_true.mp hall c hc
    cases c with
    | none => exact absurd h (by decide)
    | some v => simp at this

theorem exists_isSome_of_not_allNa {r : List Cell} (h : rowAllNa r = false) :
    ∃ i : Fin r.length, (r.get i).isSome = true := by
  by_contra hno
  push_neg at hno
  have hall : rowAllNa r = true := by
    rw [rowAllNa, List.all_eq_true]
    intro c hc
    obtain ⟨i, rfl⟩ := List.mem_iff_get.mp hc
    have := hno i
    cases hcase : r.get i with
    | none => rfl
    | some v => rw [hcase] at this; exact absurd rfl this
  rw [hall] at h
  cases h

theorem dropEmptyRC_no_na_row (cols : List String) (rows : List (List Cell))
    (hlen : ∀ r ∈ rows, r.length = cols.length) :
    ∀ r ∈ (dropEmptyRC cols rows).2, rowAllNa r = false := by
  intro r3 h3
  simp only [dropEmptyRC, List.mem_map] at h3
  obtain ⟨r, hr, rfl⟩ := h3
  have hrmem : r ∈ rows := List.mem_of_mem_filter hr
  have hna : rowAllNa r = false := by
    have := List.of_mem_filter hr
    simpa using this
  obtain ⟨i, hi⟩ := exists_isSome_of_not_allNa hna
  have hilen : (i : Nat) < cols.length := by
    rw [← hlen r hrmem]; exact i.isLt
  have hcell : (r.getD (i : Nat) none).isSome = true := by
    rw [getD_eq_get r i none i.isLt]
    exact hi
  have hikept : (i : Nat) ∈ keptCols cols (keptRows rows) := by
    unfold keptCols
    rw [List.mem_filter]
    refine ⟨List.mem_range.mpr hilen, ?_⟩
    rw [List.any_eq_true]
    exact ⟨r, hr, hcell⟩
  exact all_isNone_false_of_mem (List.mem_map_of_mem _ hikept) hcell

theorem dropEmptyRC_col_cover (cols : List String) (rows : List (List Cell)) :
    ∀ p, p < (dropEmptyRC cols rows).1.length →
      ((dropEmptyRC cols rows).2.any (fun r => (r.getD p none).isSome)) = true := by
  intro p hp
  have hpk : p < (keptCols cols (keptRows rows)).length := by
    simpa [dropEmptyRC] using hp
  have hjmem : (keptCols cols (keptRows rows)).get ⟨p, hpk⟩ ∈
      keptCols cols (keptRows rows) := List.get_mem _ _ _
  have hjmem' := hjmem
  unfold keptCols at hjmem'
  have hpred := (List.mem_filter.mp hjmem').2
  rw [List.any_eq_true] at hpred
  obtain ⟨r, hr, hrj⟩ := hpred
  rw [List.any_eq_true]
  refine ⟨(keptCols cols (keptRows rows)).map (fun j => r.getD j none),
    by simp only [dropEmptyRC]; exact List.mem_map_of_mem _ hr, ?_⟩
  rw [getD_map_lt (fun j => r.getD j none) none _ p 0 hpk,
    getD_eq_get _ p 0 hpk]
  exact hrj

theorem isEmpty_false_of_ne {α : Type} {l : List α} (h : l ≠ []) : l.isEmpty = false := by
  cases l with
  | nil => exact absurd rfl h
  | cons a t => rfl

theorem normalizeTable_invariants (t : ExtractedTable)
    (hrect : ∀ r ∈ t.rows, r.length = t.cols.length) (nt : NormalizedTable)
    (h : normalizeTable t = some nt) :
    (∀ r ∈ nt.rows, r.length = nt.cols.length) ∧
    (∀ lbl ∈ nt.cols, lbl ≠ "") ∧
    (∀ r ∈ nt.rows, rowAllNa r = false) ∧
    (∀ j, j < nt.cols.length → (nt.rows.any (fun r => (r.getD j none).isSome)) = true) := by
  unfold normalizeTable at h
  split at h
  · exact absurd h (by simp)
  · split at h
    · exact absurd h (by simp)
    · injection h with h'
      subst h'
      refine ⟨dropEmptyRC_rect _ _, ?_, ?_, dropEmptyRC_col_cover _ _⟩
      · intro lbl hl
        obtain ⟨j, hj, rfl⟩ := mem_dropEmptyRC_fst (labelsOf t) (rows1Of t) lbl hl
        exact mem_labelsOf_ne t _ (getD_mem _ j "" hj)
      · apply dropEmptyRC_no_na_row
        intro r hr
        rw [labelsOf_length]
        exact hrect r (mem_rows1Of t r hr)

theorem normalize_reExtract_fixed (nt : NormalizedTable)
    (h1 : nt.cols ≠ []) (h2 : nt.rows ≠ [])
    (h3 : ∀ r ∈ nt.rows, r.length = nt.cols.length)
    (h4 : ∀ lbl ∈ nt.cols, pyStrip lbl = lbl ∧ isSyntheticLabel lbl = false)
    (h5 : ∀ r ∈ nt.rows, rowAllNa r = false)
    (h6 : ∀ j, j < nt.cols.length → (nt.rows.any (fun r => (r.getD j none).isSome)) = true) :
    normalizeTable (reExtract nt) = some nt := by
  have hcols0 : (reExtract nt).cols.map flattenLabel = nt.cols := by
    show (nt.cols.map (fun s => RawLabel.scalar (some s))).map flattenLabel = nt.cols
    rw [List.map_map]
    have hcomp : (flattenLabel ∘ fun s => RawLabel.scalar (some s)) =
        fun s : String => s := rfl
    rw [hcomp]
    simp
  have hrows0 : (reExtract nt).rows = nt.rows := rfl
  have hres : resolvedOf (reExtract nt) =
      (List.range nt.cols.length).map (fun j => (nt.cols.getD j "", false)) := by
    unfold resolvedOf newColumns
    rw [hcols0, hrows0]
    apply List.map_congr_left
    intro j hj
    have hjlt : j < nt.cols.length := List.mem_range.mp hj
    obtain ⟨htrim, hsyn⟩ := h4 _ (getD_mem nt.cols j "" hjlt)
    unfold resolveLabel
    rw [htrim, hsyn]
    simp
  have hlab : labelsOf (reExtract nt) = nt.cols := by
    unfold labelsOf
    rw [hres, List.map_map]
    exact range_map_getD nt.cols ""
  have hprom : promotedOf (reExtract nt) = false := by
    unfold promotedOf
    rw [hres]
    simp
  have hrows1 : rows1Of (reExtract nt) = nt.rows := by
    unfold rows1Of
    rw [hprom]
    simp [hrows0]
  have hkr : keptRows nt.rows = nt.rows := by
    apply List.filter_eq_self.mpr
    intro r hr
    rw [h5 r hr]
    rfl
  have hkc : keptCols nt.cols nt.rows = List.range nt.cols.length := by
    unfold keptCols
    apply List.filter_eq_self.mpr
    intro j hj
    exact h6 j (List.mem_range.mp hj)
  have hD : dropEmptyRC nt.cols nt.rows = (nt.cols, nt.rows) := by
    unfold dropEmptyRC
    rw [hkr, hkc]
    simp only [Prod.mk.injEq]
    constructor
    · exact range_map_getD nt.cols ""
    · have hid : ∀ r ∈ nt.rows,
          (List.range nt.cols.length).map (fun j => r.getD j none) = r := by
        intro r hr
        rw [← h3 r hr]
        exact range_map_getD r none
      rw [List.map_congr_left hid]
      simp
  have gP : normalizedPair (reExtract nt) = (nt.cols, nt.rows) := by
    unfold normalizedPair
    rw [hlab, hrows1, hD]
  have g1 : (reExtract nt).rows.isEmpty = false := by
    rw [hrows0]
    exact isEmpty_false_of_ne h2
  have g2 : (reExtract nt).cols.isEmpty = false := by
    apply isEmpty_false_of_ne
    simp [reExtract, h1]
  unfold normalizeTable
  rw [g1, g2, gP]
  simp [isEmpty_false_of_ne h1, isEmpty_false_of_ne h2]

theorem renderWorkbook_ne_nil (processed : List NormalizedTable) :
    renderWorkbook processed ≠ [] := by
  unfold renderWorkbook
  split
  · simp
  · rename_i hempty
    intro hnil
    rw [hnil] at hempty
    simp at hempty

theorem upload_flow_no_source (m : String) (req : UploadRequest) (env : ConvEnv) :
    (upload_flow m req env).sourceRemains = false := by
  simp only [upload_flow, apply_ite UploadOutcome.sourceRemains, ite_self]

theorem normalizeTable_promoted_drop (t : ExtractedTable)
    (hc : t.cols ≠ []) (hr2 : 2 ≤ t.rows.length)
    (hrect : ∀ r ∈ t.rows, r.length = t.cols.length)
    (hsyn : ∀ l ∈ t.cols, isSyntheticLabel (pyStrip (flattenLabel l)) = true)
    (hgood : ∀ j, j < t.cols.length →
      isGoodHeader (headerCandidate (t.rows.getD 0 []) j) = true)
    (htail : ∀ r ∈ t.rows.tail, rowAllNa r = false) :
    (normalizeTable t).map (fun nt => nt.rows.length + 1) = some t.rows.length := by
  have hn : 0 < t.cols.length := List.length_pos.mpr hc
  have hrowsne : t.rows ≠ [] := by
    intro hnil
    rw [hnil] at hr2
    simp at hr2
  have hlab0 : (t.cols.map flattenLabel).getD 0 "" =
      flattenLabel (t.cols.getD 0 (RawLabel.scalar none)) :=
    getD_map_lt flattenLabel "" t.cols 0 (RawLabel.scalar none) hn
  have hsyn0 : isSyntheticLabel (pyStrip ((t.cols.map flattenLabel).getD 0 "")) = true := by
    rw [hlab0]
    exact hsyn _ (getD_mem t.cols 0 _ hn)
  have hprom : promotedOf t = true := by
    unfold promotedOf resolvedOf newColumns
    rw [List.any_eq_true]
    refine ⟨resolveLabel (t.rows.getD 0 []) 0 ((t.cols.map flattenLabel).getD 0 ""),
      List.mem_map_of_mem _ (List.mem_range.mpr (by simpa using hn)), ?_⟩
    unfold resolveLabel
    rw [hsyn0, hgood 0 hn]
    simp
  have hrows1 : rows1Of t = t.rows.tail := by
    unfold rows1Of
    rw [hprom]
    simp
  have hkr : keptRows t.rows.tail = t.rows.tail := by
    apply List.filter_eq_self.mpr
    intro r hr
    rw [htail r hr]
    rfl
  have htailne : t.rows.tail ≠ [] := by
    intro hnil
    have hlen := List.length_tail t.rows
    rw [hnil] at hlen
    simp at hlen
    omega
  obtain ⟨r₀, hr₀⟩ := List.exists_mem_of_ne_nil _ htailne
  have hr₀rows : r₀ ∈ t.rows := List.mem_of_mem_tail hr₀
  obtain ⟨i, hi⟩ := exists_isSome_of_not_allNa (htail r₀ hr₀)
  have hilt : (i : Nat) < (labelsOf t).length := by
    rw [labelsOf_length, ← hrect r₀ hr₀rows]
    exact i.isLt
  have hKmem : (i : Nat) ∈ keptCols (labelsOf t) (keptRows (rows1Of t)) := by
    unfold keptCols
    rw [List.mem_filter]
    refine ⟨List.mem_range.mpr hilt, ?_⟩
    rw [List.any_eq_true]
    refine ⟨r₀, ?_, ?_⟩
    · rw [hrows1, hkr]
      exact hr₀
    · rw [getD_eq_get r₀ i none i.isLt]
      exact hi
  have hKne : keptCols (labelsOf t) (keptRows (rows1Of t)) ≠ [] :=
    List.ne_nil_of_mem hKmem
  have hP2len : (normalizedPair t).2.length = t.rows.length - 1 := by
    show ((keptRows (rows1Of t)).map _).length = _
    rw [List.length_map, hrows1, hkr, List.length_tail]
  have hP2ne : (normalizedPair t).2.isEmpty = false := by
    apply isEmpty_false_of_ne
    intro hnil
    have hlen := congrArg List.length hnil
    rw [hP2len] at hlen
    simp at hlen
    omega
  have hP1ne : (normalizedPair t).1.isEmpty = false := by
    apply isEmpty_false_of_ne
    show ((keptCols (labelsOf t) (keptRows (rows1Of t))).map _) ≠ []
    intro hnil
    exact hKne (List.map_eq_nil_iff.mp hnil)
  have g1 : t.rows.isEmpty = false := isEmpty_false_of_ne hrowsne
  have g2 : t.cols.isEmpty = false := isEmpty_false_of_ne hc
  unfold normalizeTable
  rw [g1, g2, hP2ne, hP1ne]
  simp
  rw [hP2len]
  omega

theorem isGoodHeader_iff (v : String) :
    isGoodHeader v = true ↔
      (v ≠ "" ∧ v ≠ "nan" ∧ pyLower v ≠ "none" ∧ pyIsDigit v = false) := by
  unfold isGoodHeader
  simp only [Bool.and_eq_true, bne_iff_ne, ne_eq, decide_eq_true_eq,
    Bool.not_eq_true']
  constructor
  · rintro ⟨⟨⟨⟨h1, h2⟩, h3⟩, _⟩, h5⟩
    exact ⟨h1, h2, h3, h5⟩
  · rintro ⟨h1, h2, h3, h5⟩
    refine ⟨⟨⟨⟨h1, h2⟩, h3⟩, ?_⟩, h5⟩
    cases v with
    | mk data =>
      cases data with
      | nil => exact absurd rfl h1
      | cons c cs => simp [String.length]

/-! ## Claims -/

/-- C1 counterexample: when every extraction strategy returns no tables
(a structurally valid PDF with no extractable tables), the spreadsheet
conversion returns a Failure result carrying the "No tables or data
found" message — not, as the claim states, a Success result whose
workbook holds a single explanatory row. -/
theorem C1_counterexample :
    convert_pdf_to_excel [] [] [] [] = Except.error noTablesMsg := rfl

/-- C1 amended: whenever no table survives normalization the conversion
returns the Failure result with the "No tables or data found" message
(the explanatory `Notice` sheet of app.py:372-375 is unreachable), and
whenever the conversion does return a workbook, that workbook contains
at least one sheet — it is never empty. -/
theorem C1_amended (s1 s2 s3 s4 : List ExtractedTable) :
    (((extractionLadder s1 s2 s3 s4).filterMap normalizeTable).isEmpty = true →
        convert_pdf_to_excel s1 s2 s3 s4 = Except.error noTablesMsg) ∧
    (∀ wb, convert_pdf_to_excel s1 s2 s3 s4 = Except.ok wb → wb ≠ []) := by
  constructor
  · intro h
    unfold convert_pdf_to_excel excelPipeline
    rw [h]
    simp
  · intro wb hwb
    unfold convert_pdf_to_excel excelPipeline at hwb
    split at hwb
    · simp at hwb
    · injection hwb with h'
      rw [← h']
      exact renderWorkbook_ne_nil _

/-- C1 witness: with a first strategy returning a single all-null table
(so that normalization discards everything), the pipeline fails with the
"No tables or data found" message. -/
theorem C1_witness :
    convert_pdf_to_excel [tAllNa] [] [] [] = Except.error noTablesMsg :=
  (C1_amended [tAllNa] [] [] []).1 (by rfl)

/-- C2 counterexample: normalization preserves duplicate column labels,
so the claimed uniqueness invariant fails — the table with columns
`["A", "A"]` normalizes to a table whose labels are not distinct. -/
theorem C2_counterexample :
    (normalizeTable tDup).map NormalizedTable.cols = some ["A", "A"] ∧
      ¬ (["A", "A"] : List String).Nodup := by
  constructor
  · rfl
  · decide

/-- C2 amended: every normalized table produced from a rectangular
extracted table is rectangular, has non-empty column labels, and has no
entirely-null row and no entirely-null column; column labels are however
not guaranteed to be unique. -/
theorem C2_amended (t : ExtractedTable)
    (hrect : ∀ r ∈ t.rows, r.length = t.cols.length) (nt : NormalizedTable)
    (h : normalizeTable t = some nt) :
    (∀ r ∈ nt.rows, r.length = nt.cols.length) ∧
    (∀ lbl ∈ nt.cols, lbl ≠ "") ∧
    (∀ r ∈ nt.rows, rowAllNa r = false) ∧
    (∀ j, j < nt.cols.length →
      (nt.rows.any (fun r => (r.getD j none).isSome)) = true) :=
  normalizeTable_invariants t hrect nt h

/-- C2 witness: the invariants instantiated on the concrete table
`tW2`, whose normalization is `ntW2`. -/
theorem C2_witness :
    (∀ r ∈ ntW2.rows, r.length = ntW2.cols.length) ∧
    (∀ lbl ∈ ntW2.cols, lbl ≠ "") ∧
    (∀ r ∈ ntW2.rows, rowAllNa r = false) ∧
    (∀ j, j < ntW2.cols.length →
      (ntW2.rows.any (fun r => (r.getD j none).isSome)) = true) :=
  C2_amended tW2 (by decide) ntW2 (by decide)

/-- C3 counterexample: the first strategy returns a list containing at
least one non-empty table (together with one empty table), yet the
ladder discards it and uses the second strategy's output — refuting the
claim that the ladder stops at the first strategy returning at least one
non-empty table. -/
theorem C3_counterexample :
    ([tGoodA, tEmptyT].any tableOk = true) ∧
    extractionLadder [tGoodA, tEmptyT] [tGoodB] [] [] = [tGoodB] ∧
    ([tGoodB] ≠ [tGoodA, tEmptyT]) := by
  refine ⟨by decide, by decide, by decide⟩

/-- C3 amended: the ladder's four strategies are consulted in the fixed
priority order and the output used is that of the first strategy whose
result is accepted — where a result is accepted iff it is a non-empty
list of tables none of which is empty; when no strategy is accepted the
fourth strategy's output is kept. -/
theorem C3_amended :
    (∀ s1 s2 s3 s4 : List ExtractedTable,
      extractionLadder s1 s2 s3 s4 = (([s1, s2, s3].find? ladderAccepts).getD s4)) ∧
    (∀ dfs : List ExtractedTable,
      ladderAccepts dfs = true ↔ dfs ≠ [] ∧ ∀ t ∈ dfs, t.rows ≠ [] ∧ t.cols ≠ []) := by
  constructor
  · intro s1 s2 s3 s4
    unfold extractionLadder
    cases h1 : ladderAccepts s1 with
    | true => rw [List.find?_cons_of_pos _ h1]; simp
    | false =>
      have h1' : ¬ ladderAccepts s1 = true := by rw [h1]; simp
      rw [List.find?_cons_of_neg _ h1']
      cases h2 : ladderAccepts s2 with
      | true => rw [List.find?_cons_of_pos _ h2]; simp
      | false =>
        have h2' : ¬ ladderAccepts s2 = true := by rw [h2]; simp
        rw [List.find?_cons_of_neg _ h2']
        cases h3 : ladderAccepts s3 with
        | true => rw [List.find?_cons_of_pos _ h3]; simp
        | false =>
          have h3' : ¬ ladderAccepts s3 = true := by rw [h3]; simp
          rw [List.find?_cons_of_neg _ h3']
          simp
  · intro dfs
    unfold ladderAccepts tableOk
    rw [Bool.and_eq_true, List.all_eq_true]
    constructor
    · rintro ⟨hne, hall⟩
      constructor
      · intro hnil
        rw [hnil] at hne
        simp at hne
      · intro t ht
        have h := hall t ht
        rw [Bool.not_eq_true', Bool.or_eq_false_iff] at h
        constructor
        · intro hnil
          rw [hnil] at h
          simp at h
        · intro hnil
          rw [hnil] at h
          simp at h
    · rintro ⟨hne, hall⟩
      constructor
      · rw [Bool.not_eq_true']
        exact isEmpty_false_of_ne hne
      · intro t ht
        obtain ⟨hr, hc⟩ := hall t ht
        rw [Bool.not_eq_true', Bool.or_eq_false_iff]
        exact ⟨isEmpty_false_of_ne hr, isEmpty_false_of_ne hc⟩

/-- C3 witness: with an empty first strategy, the second accepted
strategy's output is chosen; acceptance of a singleton good table is
characterized as stated. -/
theorem C3_witness :
    extractionLadder [] [tGoodB] [] [] = [tGoodB] ∧ ladderAccepts [tGoodB] = true :=
  ⟨(C3_amended.1 [] [tGoodB] [] []).trans (by decide),
   (C3_amended.2 [tGoodB]).mpr (by decide)⟩

/-- C4 counterexample: a two-row table with an all-synthetic header and
a promotable first data row whose remaining row is entirely null: after
the promoted row is dropped, the second row is dropped as all-empty and
the table is discarded entirely, so no normalized table with "exactly
one fewer row" exists. -/
theorem C4_counterexample :
    tC4.rows.length = 2 ∧ normalizeTable tC4 = none := by
  constructor
  · rfl
  · decide

/-- C4 amended: for every rectangular extracted table with at least two
rows, all-synthetic column labels, a first data row of promotable
(non-empty, non-null-marker, non-numeric) values, and no entirely-null
remaining row, the first row is promoted and dropped for the entire
table and the resulting normalized table has exactly one fewer row than
the input. -/
theorem C4_amended (t : ExtractedTable)
    (hc : t.cols ≠ []) (hr2 : 2 ≤ t.rows.length)
    (hrect : ∀ r ∈ t.rows, r.length = t.cols.length)
    (hsyn : ∀ l ∈ t.cols, isSyntheticLabel (pyStrip (flattenLabel l)) = true)
    (hgood : ∀ j, j < t.cols.length →
      isGoodHeader (headerCandidate (t.rows.getD 0 []) j) = true)
    (htail : ∀ r ∈ t.rows.tail, rowAllNa r = false) :
    (normalizeTable t).map (fun nt => nt.rows.length + 1) = some t.rows.length :=
  normalizeTable_promoted_drop t hc hr2 hrect hsyn hgood htail

/-- C4 witness: the two-row table `tC4w` with a synthetic label and
promotable first row normalizes to a table with exactly one row. -/
theorem C4_witness :
    (normalizeTable tC4w).map (fun nt => nt.rows.length + 1) = some tC4w.rows.length :=
  C4_amended tC4w (by decide) (by decide) (by decide) (by decide) (by decide)
    (by decide)

/-- C5: for a column whose label is empty, synthetic, or the null
marker, the resolved label is the first data row's value exactly when
that value is a good header, the positional fallback `Column_<j+1>`
otherwise, and the promotion flag is set exactly in the first case;
being a good header is equivalent to being non-empty, different from the
null-marker renderings `nan`/`none`, and not purely numeric. -/
theorem C5_confirmed (t : ExtractedTable) (j : Nat) (hj : j < t.cols.length)
    (hbad : isSyntheticLabel
      (pyStrip (flattenLabel (t.cols.getD j (RawLabel.scalar none)))) = true) :
    (isGoodHeader (headerCandidate (t.rows.getD 0 []) j) = true →
      (resolvedOf t).getD j ("", false) =
        (headerCandidate (t.rows.getD 0 []) j, true)) ∧
    (isGoodHeader (headerCandidate (t.rows.getD 0 []) j) = false →
      (resolvedOf t).getD j ("", false) =
        ("Column_" ++ toString (j + 1), false)) ∧
    (isGoodHeader (headerCandidate (t.rows.getD 0 []) j) = true ↔
      (headerCandidate (t.rows.getD 0 []) j ≠ "" ∧
       headerCandidate (t.rows.getD 0 []) j ≠ "nan" ∧
       pyLower (headerCandidate (t.rows.getD 0 []) j) ≠ "none" ∧
       pyIsDigit (headerCandidate (t.rows.getD 0 []) j) = false)) := by
  have hfix : (resolvedOf t).getD j ("", false) =
      resolveLabel (t.rows.getD 0 []) j
        (flattenLabel (t.cols.getD j (RawLabel.scalar none))) := by
    unfold resolvedOf newColumns
    rw [getD_map_lt _ ("", false) _ j 0 (by simpa using hj),
      getD_range _ j 0 (by simpa using hj),
      getD_map_lt flattenLabel "" t.cols j (RawLabel.scalar none) hj]
  refine ⟨?_, ?_, isGoodHeader_iff _⟩
  · intro hgood
    rw [hfix]
    unfold resolveLabel
    rw [hbad, hgood]
    simp
  · intro hgood
    rw [hfix]
    unfold resolveLabel
    rw [hbad, hgood]
    simp

/-- C5 witness: on the concrete table `t5w` (null-marker label, first
row value `"Name"`), the resolved label is the promoted `"Name"` with
the promotion flag set. -/
theorem C5_witness : (resolvedOf t5w).getD 0 ("", false) = ("Name", true) :=
  ((C5_confirmed t5w 0 (by decide) (by decide)).1 (by decide)).trans (by decide)

/-- C6: on every conversion request that produces a failure result, on
either route, the uploaded source PDF does not remain on disk after the
response is returned. -/
theorem C6_confirmed (req : UploadRequest) (env : ConvEnv) :
    ((upload_file req env).success = false →
      (upload_file req env).sourceRemains = false) ∧
    ((upload_file_excel req env).success = false →
      (upload_file_excel req env).sourceRemains = false) :=
  ⟨fun _ => upload_flow_no_source _ req env, fun _ => upload_flow_no_source _ req env⟩

/-- C6 witness: a request whose PDF fails validation gets a failure
response and leaves no source file behind. -/
theorem C6_witness :
    (upload_file reqPdf envInvalid).success = false ∧
    (upload_file reqPdf envInvalid).sourceRemains = false :=
  ⟨by decide, (C6_confirmed reqPdf envInvalid).1 (by decide)⟩

/-- C7: the download route declares the word-processing MIME type for
every artifact — including a spreadsheet artifact such as
`3f1e_report.xlsx` — instead of the Open XML spreadsheet MIME type, so
spreadsheet outputs are served with the wrong MIME kind. -/
theorem C7_code_evaluation :
    download_mimetype "3f1e_report.xlsx" =
      "application/vnd.openxmlformats-officedocument.wordprocessingml.document" ∧
    "application/vnd.openxmlformats-officedocument.wordprocessingml.document" ≠
      "application/vnd.openxmlformats-officedocument.spreadsheetml.sheet" :=
  ⟨rfl, by decide⟩

/-- C8 counterexample: a destination that exists, is non-empty and is a
readable zip, but lacks the required `word/document.xml` entry, is still
reported as a success — the missing entry only yields a warning,
refuting the claim that it yields a failure result. -/
theorem C8_counterexample :
    (convert_pdf_to_docx envC8).1 = (true, "Conversion completed successfully") ∧
    (convert_pdf_to_docx envC8).2 = ["word/document.xml"] := by
  constructor
  · rfl
  · rfl

/-- C8 amended: `convert_pdf_to_docx` declares success exactly when the
source exists and is non-empty, the transformer does not raise, and the
destination exists, is non-empty and is a readable zip container;
missing required manifest entries are only logged as warnings and never
cause a failure result. -/
theorem C8_amended (env : DocxEnv) :
    (convert_pdf_to_docx env).1.1 = true ↔
      (env.srcExists = true ∧ env.srcSize ≠ 0 ∧ env.conversionRaises = none ∧
       env.destExists = true ∧ env.destSize ≠ 0 ∧ env.destIsZip = true) := by
  obtain ⟨se, ss, cr, de, ds, dz, ents⟩ := env
  cases se <;> cases de <;> cases dz <;> cases cr <;>
    by_cases hss : ss = 0 <;> by_cases hds : ds = 0 <;>
      simp [convert_pdf_to_docx, hss, hds]

/-- C8 witness: with every probe passing and both required entries
present, the conversion reports success. -/
theorem C8_witness : (convert_pdf_to_docx envC8ok).1.1 = true :=
  (C8_amended envC8ok).mpr (by decide)

/-- C9 counterexample: `t9` normalizes to a table whose (promoted)
label starts with `Unnamed`; re-running normalization on that output
promotes its only data row and discards the table, so normalization is
not idempotent. -/
theorem C9_counterexample :
    normalizeTable t9 = some nt9 ∧ normalizeTable (reExtract nt9) = none := by
  constructor
  · decide
  · decide

/-- C9 amended: normalization is idempotent on every normalized table
none of whose column labels looks synthetic — precisely, every
rectangular non-empty table whose labels are whitespace-trimmed and not
synthetic (no `Unnamed` prefix, not empty, not a null-marker rendering)
and which has no entirely-null row or column is returned unchanged by
renormalization. -/
theorem C9_amended (nt : NormalizedTable)
    (h1 : nt.cols ≠ []) (h2 : nt.rows ≠ [])
    (h3 : ∀ r ∈ nt.rows, r.length = nt.cols.length)
    (h4 : ∀ lbl ∈ nt.cols, pyStrip lbl = lbl ∧ isSyntheticLabel lbl = false)
    (h5 : ∀ r ∈ nt.rows, rowAllNa r = false)
    (h6 : ∀ j, j < nt.cols.length →
      (nt.rows.any (fun r => (r.getD j none).isSome)) = true) :
    normalizeTable (reExtract nt) = some nt :=
  normalize_reExtract_fixed nt h1 h2 h3 h4 h5 h6

/-- C9 witness: the normalized table `nt9w` is returned unchanged by
renormalization. -/
theorem C9_witness : normalizeTable (reExtract nt9w) = some nt9w :=
  C9_amended nt9w (by decide) (by decide) (by decide) (by decide) (by decide)
    (by decide)

/-- C10 counterexample: the 1×1 table holding `"X"` does not survive
normalization when its column label is synthetic: the cell is promoted
to the header, the emptied table is discarded, and neither its row nor
its column is retained. -/
theorem C10_counterexample : normalizeTable t10 = none := by decide

/-- C10 amended: the 1×1 table holding the non-empty value `"X"`
survives normalization unchanged whenever its column label is a real
(whitespace-trimmed, non-synthetic) header label. -/
theorem C10_amended (lbl : String) (h1 : pyStrip lbl = lbl)
    (h2 : isSyntheticLabel lbl = false) :
    normalizeTable ⟨[RawLabel.scalar (some lbl)], [[some "X"]]⟩ =
      some ⟨[lbl], [[some "X"]]⟩ := by
  have hre : reExtract ⟨[lbl], [[some "X"]]⟩ =
      ⟨[RawLabel.scalar (some lbl)], [[some "X"]]⟩ := rfl
  rw [← hre]
  apply normalize_reExtract_fixed
  · simp
  · simp
  · intro r hr
    simp at hr
    subst hr
    rfl
  · intro l hl
    simp at hl
    subst hl
    exact ⟨h1, h2⟩
  · intro r hr
    simp at hr
    subst hr
    rfl
  · intro j hj
    have hj0 : j = 0 := by simpa using hj
    subst hj0
    rfl

/-- C10 witness: with the ordinary label `"Name"`, the 1×1 table
holding `"X"` survives normalization unchanged. -/
theorem C10_witness :
    normalizeTable ⟨[RawLabel.scalar (some "Name")], [[some "X"]]⟩ =
      some ⟨["Name"], [[some "X"]]⟩ :=
  C10_amended "Name" (by decide) (by decide)

end Buzzy
